import Mathlib

/-!
Shallow embedding of the SEYA backend (src/main.py, src/schemas.py):
document values, the Python-dict operations the code uses, the
serialization and identifier helpers, and the HTTP handlers.
Machine integers and floats are modelled as Int/Rat; fallible handlers
return an explicit result type carrying the HTTP status.
-/

/-- A variant sub-document as produced by schemas.Variant
(sku, size?, color?, stock, price override?). -/
structure VariantDoc where
  sku : String
  size : Option String
  color : Option String
  stock : Int
  price : Option ℚ
deriving DecidableEq, Repr

/-- BSON-like document values as they occur in this backend: scalars,
the store's internal identifier (ObjectId, modelled by its numeric value),
arrays of strings, arrays of identifiers, and arrays of variant
sub-documents. -/
inductive BVal where
  | null : BVal
  | bool (b : Bool) : BVal
  | int (n : Int) : BVal
  | num (q : ℚ) : BVal
  | str (s : String) : BVal
  | oid (n : Nat) : BVal
  | strArr (xs : List String) : BVal
  | oidArr (xs : List Nat) : BVal
  | variantArr (xs : List VariantDoc) : BVal
deriving DecidableEq, Repr

/-- A document: ordered key/value pairs, mirroring a Python dict
(unique keys, insertion-ordered). -/
abbrev Doc : Type := List (String × BVal)

/-- str() of an ObjectId: its textual representation. -/
def oidStr (n : Nat) : String := toString n

/-- str() applied to a document value (only the cases the code reaches). -/
def bvalStr : BVal → String
  | .null => "None"
  | .bool b => toString b
  | .int n => toString n
  | .num q => toString q
  | .str s => s
  | .oid n => oidStr n
  | .strArr _ => "list"
  | .oidArr _ => "list"
  | .variantArr _ => "list"

/-- Dict lookup `d[k]` / `d.get(k)`: first (unique) entry with the key. -/
def dictGet : Doc → String → Option BVal
  | [], _ => none
  | p :: rest, k => if p.1 = k then some p.2 else dictGet rest k

/-- Membership test `k in d`. -/
def hasKey : Doc → String → Bool
  | [], _ => false
  | p :: rest, k => p.1 = k || hasKey rest k

/-- Effect of `d.pop(k)` on the remaining dict: the entry with key k is
removed, order of the others preserved. -/
def removeKey : Doc → String → Doc
  | [], _ => []
  | p :: rest, k => if p.1 = k then removeKey rest k else p :: removeKey rest k

/-- Update every entry holding key k (a Python dict has at most one). -/
def setExisting : Doc → String → BVal → Doc
  | [], _, _ => []
  | p :: rest, k, v => if p.1 = k then (k, v) :: setExisting rest k v else p :: setExisting rest k v

/-- Assignment `d[k] = v`: update in place when the key exists, else
append at the end — Python dict semantics. -/
def dictSet (d : Doc) (k : String) (v : BVal) : Doc :=
  if hasKey d k then setExisting d k v else d ++ [(k, v)]

/-- The loop `for k, v in d.items(): if isinstance(v, ObjectId): d[k] = str(v)`
acting on one value: a top-level ObjectId becomes its string, everything
else (including identifiers nested in arrays) is untouched. -/
def stringifyVal : BVal → BVal
  | .oid n => .str (oidStr n)
  | v => v

/-- Apply stringifyVal to every top-level value of the document. -/
def stringifyTop : Doc → Doc
  | [] => []
  | (k, v) :: rest => (k, stringifyVal v) :: stringifyTop rest

/-- serialize(doc) from src/main.py, for dict inputs: empty dict passes
through; otherwise `_id` is popped and re-added under "id" as a string,
then top-level ObjectId values are stringified in place. -/
def serializeDoc (d : Doc) : Doc :=
  if d.isEmpty then d
  else
    stringifyTop (match dictGet d "_id" with
      | some w => dictSet (removeKey d "_id") "id" (.str (bvalStr w))
      | none => d)

/-- serialize(doc) on a possibly-None argument: `if not doc: return doc`
makes None pass through unchanged. -/
def serialize : Option Doc → Option Doc
  | none => none
  | some d => some (serializeDoc d)

/-- Python truthiness of an optional string (None and "" are falsy), as
used in `if category:`, `if q:`, `if not secret:`, `if i.image`. -/
def pyTruthy : Option String → Bool
  | none => false
  | some s => !s.isEmpty

/-- Modelled from the spec: the document store's case-insensitive
regular-expression operator, as used by the title filter
`\x7b"$regex": q, "$options": "i"\x7d`. Minimal regex semantics sufficient
for this backend: a pattern character '.' matches any character, every
other pattern character matches itself up to letter case; the pattern may
match at any position of the text. -/
def rxMatchAt : List Char → List Char → Bool
  | [], _ => true
  | _ :: _, [] => false
  | p :: ps, t :: ts => (p = '.' || p.toLower = t.toLower) && rxMatchAt ps ts

/-- Unanchored regex search: the pattern matches at some position. -/
def rxSearchCI (ps : List Char) : List Char → Bool
  | [] => rxMatchAt ps []
  | t :: ts => rxMatchAt ps (t :: ts) || rxSearchCI ps ts

/-- Case-insensitive literal prefix comparison (the spec reading of the
title filter: plain substring matching). -/
def litMatchAt : List Char → List Char → Bool
  | [], _ => true
  | _ :: _, [] => false
  | p :: ps, t :: ts => (p.toLower = t.toLower) && litMatchAt ps ts

/-- Case-insensitive substring containment. -/
def substrCI (ps : List Char) : List Char → Bool
  | [] => litMatchAt ps []
  | t :: ts => litMatchAt ps (t :: ts) || substrCI ps ts

/-- Result of a handler: a JSON payload, or an HTTPException with a
status code and a detail string. -/
inductive ApiResult (α : Type) where
  | ok (value : α) : ApiResult α
  | err (status : Nat) (detail : String) : ApiResult α
deriving DecidableEq, Repr

/-- The backend's document collections (physical names product, blogpost,
message) plus the store's identifier counter; the process-wide handle is
`Option DB`, none meaning "database not configured". -/
structure DB where
  product : List Doc
  blogpost : List Doc
  message : List Doc
  nextId : Nat
deriving DecidableEq, Repr

/-- The Mongo filter built by list_products, applied to one stored
document: always `active: True`, plus an exact category match and a
case-insensitive title regex when those were kept by the handler. -/
def matchesProduct (catF qF : Option String) (d : Doc) : Bool :=
  decide (dictGet d "active" = some (.bool true))
  && (match catF with
      | none => true
      | some c => decide (dictGet d "category" = some (.str c)))
  && (match qF with
      | none => true
      | some pat =>
        match dictGet d "title" with
        | some (.str t) => rxSearchCI pat.data t.data
        | _ => false)

/-- GET /api/products: 500 when no database handle; otherwise filter on
active (plus truthy category / truthy q), first 100 matches, serialized. -/
def list_products (db : Option DB) (category q : Option String) : ApiResult (List Doc) :=
  match db with
  | none => .err 500 "Database not configured"
  | some db =>
    let catF := if pyTruthy category then category else none
    let qF := if pyTruthy q then q else none
    .ok (((db.product.filter (matchesProduct catF qF)).take 100).map serializeDoc)

/-- The spec-worded reading of the product filter: identical to
matchesProduct except that the title test is plain case-insensitive
substring containment of q. -/
def matchesProductSub (catF qF : Option String) (d : Doc) : Bool :=
  decide (dictGet d "active" = some (.bool true))
  && (match catF with
      | none => true
      | some c => decide (dictGet d "category" = some (.str c)))
  && (match qF with
      | none => true
      | some pat =>
        match dictGet d "title" with
        | some (.str t) => substrCI pat.data t.data
        | _ => false)

/-- The spec-worded variant of list_products, stated for comparison: the
title filter is plain case-insensitive substring containment of q. -/
def list_products_substring (db : Option DB) (category q : Option String) : ApiResult (List Doc) :=
  match db with
  | none => .err 500 "Database not configured"
  | some db =>
    let catF := if pyTruthy category then category else none
    let qF := if pyTruthy q then q else none
    .ok (((db.product.filter (matchesProductSub catF qF)).take 100).map serializeDoc)

/-- Hexadecimal digit test for ObjectId strings. -/
def isHexChar (c : Char) : Bool :=
  c.isDigit || ('a' ≤ c && c ≤ 'f') || ('A' ≤ c && c ≤ 'F')

/-- Modelled from the bson library used by src/main.py: ObjectId(s)
succeeds on a string exactly when it is 24 hexadecimal characters. -/
def isValidObjectId (s : String) : Bool :=
  s.length = 24 && s.data.all isHexChar

/-- Numeric value of a hex digit. -/
def hexVal (c : Char) : Nat :=
  if c.isDigit then c.toNat - 48
  else if 'a' ≤ c && c ≤ 'f' then c.toNat - 87
  else c.toNat - 55

/-- Numeric value of a hex string (the internal identifier it denotes). -/
def hexToNat (s : String) : Nat :=
  s.data.foldl (fun a c => a * 16 + hexVal c) 0

/-- oid(id_str) from src/main.py: convert an external identifier string,
raising HTTP 400 "Invalid ID" when it is malformed. -/
def oid (s : String) : ApiResult Nat :=
  if isValidObjectId s then .ok (hexToNat s) else .err 400 "Invalid ID"

/-- GET /api/products/\x7bproduct_id\x7d: the database check runs first,
then the id is parsed, then the point lookup. -/
def get_product (db : Option DB) (product_id : String) : ApiResult Doc :=
  match db with
  | none => .err 500 "Database not configured"
  | some db =>
    match oid product_id with
    | .err s detail => .err s detail
    | .ok n =>
      match db.product.find? (fun d => decide (dictGet d "_id" = some (.oid n))) with
      | none => .err 404 "Product not found"
      | some doc => .ok (serializeDoc doc)

/-- schemas.Product: the validated product record (category is one of the
four literals; validation itself is not needed by the claims). -/
structure ProductSchema where
  title : String
  description : Option String
  price : ℚ
  category : String
  images : List String
  tags : List String
  variants : List VariantDoc
  active : Bool
deriving DecidableEq, Repr

/-- An optional string as a document value. -/
def optStr : Option String → BVal
  | none => .null
  | some s => .str s

/-- The document shape of a product record, with the store-assigned
internal identifier. -/
def productToDoc (id : Nat) (p : ProductSchema) : Doc :=
  [("_id", .oid id), ("title", .str p.title), ("description", optStr p.description),
   ("price", .num p.price), ("category", .str p.category),
   ("images", .strArr p.images), ("tags", .strArr p.tags),
   ("variants", .variantArr p.variants), ("active", .bool p.active)]

/-- Modelled from the spec: create_document("product", record) from the
persistence gateway (database.py is not under src/) — "serializes the
validated record to a document and inserts it into the named collection";
the store assigns the next internal identifier. -/
def dbCreateProduct (d : DB) (p : ProductSchema) : DB :=
  { d with product := d.product ++ [productToDoc d.nextId p], nextId := d.nextId + 1 }

/-- The three fixed demo products from src/main.py lines 103-134. -/
def demo_products : List ProductSchema :=
  [⟨"SEYA Hoodie Noir", some "Hoodie premium en coton épais.", 89, "Hoodies",
    ["https://images.unsplash.com/photo-1520975922203-b8ad5b1cfdf4"],
    ["nouveau", "best"],
    [⟨"HD-BLK-S", some "S", none, 10, none⟩, ⟨"HD-BLK-M", some "M", none, 15, none⟩],
    true⟩,
   ⟨"SEYA Tee Crème", some "T-shirt oversize crème.", 39, "Tees",
    ["https://images.unsplash.com/photo-1512436991641-6745cdb1723f"],
    ["drop"],
    [⟨"TS-CRM-M", some "M", none, 25, none⟩],
    true⟩,
   ⟨"SEYA Cargo Bleu", some "Cargo bleu électrique.", 109, "Pantalons",
    ["https://images.unsplash.com/photo-1520975853989-5c2f5cb4831d"],
    ["limited"],
    [⟨"CRG-BLU-32", some "32", none, 8, none⟩],
    true⟩]

/-- The JSON body returned by POST /api/seed. -/
structure SeedResp where
  inserted : Nat
  message : Option String
deriving DecidableEq, Repr

/-- POST /api/seed: 500 when no database handle; no-op with inserted=0
when the product collection is non-empty; otherwise inserts the three
demo products one by one, counting the inserts. -/
def seed : Option DB → Option DB × ApiResult SeedResp
  | none => (none, .err 500 "Database not configured")
  | some d =>
    if d.product.length > 0 then
      (some d, .ok ⟨0, some "Products already exist"⟩)
    else
      let r := demo_products.foldl (fun acc p => (dbCreateProduct acc.1 p, acc.2 + 1)) (d, 0)
      (some r.1, .ok ⟨r.2, none⟩)

/-- Modelled from the spec: the email-format validation performed by the
schema layer (pydantic's EmailStr, an external library): a single '@'
separating a non-empty local part from a domain that contains a dot and
has no empty labels. The claims depend only on failures of clearly
malformed addresses. -/
def splitOnChar (c : Char) (l : List Char) : List (List Char) :=
  l.foldr
    (fun x acc =>
      match acc with
      | [] => if x = c then [[], []] else [[x]]
      | g :: gs => if x = c then [] :: g :: gs else (x :: g) :: gs)
    [[]]

/-- Validity of an email address per the modelled schema-layer check. -/
def emailValid (s : String) : Bool :=
  match splitOnChar '@' s.data with
  | [lp, dom] =>
    !lp.isEmpty && !dom.isEmpty &&
    (splitOnChar '.' dom).length ≥ 2 &&
    (splitOnChar '.' dom).all (fun part => !part.isEmpty)
  | _ => false

/-- The validated contact payload (FastAPI model ContactIn: four plain
strings, the email not yet format-checked at this layer). -/
structure ContactIn where
  name : String
  email : String
  subject : String
  message : String
deriving DecidableEq, Repr

/-- schemas.Message record: the contact fields plus source="contact". -/
structure MessageRec where
  name : String
  email : String
  subject : String
  message : String
  source : String
deriving DecidableEq, Repr

/-- Document shape of a persisted message. -/
def messageToDoc (id : Nat) (m : MessageRec) : Doc :=
  [("_id", .oid id), ("name", .str m.name), ("email", .str m.email),
   ("subject", .str m.subject), ("message", .str m.message),
   ("source", .str m.source)]

/-- Modelled from the spec: create_document("message", record) appends
the message document with the next internal identifier. -/
def dbCreateMessage (d : DB) (m : MessageRec) : DB :=
  { d with message := d.message ++ [messageToDoc d.nextId m], nextId := d.nextId + 1 }

/-- POST /api/contact: inside one try block the handler validates the
payload as a schemas.Message (EmailStr check) and persists it; any
exception — a validation failure as much as a persistence failure — is
re-raised as HTTP 500 with the error text. -/
def contact_submit (db : Option DB) (p : ContactIn) : Option DB × ApiResult Doc :=
  if emailValid p.email then
    match db with
    | none => (none, .err 500 "Database not configured")
    | some d =>
      (some (dbCreateMessage d ⟨p.name, p.email, p.subject, p.message, "contact"⟩),
       .ok [("status", .str "ok")])
  else
    (db, .err 500 "validation error for Message: email value is not a valid email address")

/-- The Mongo filter built by list_blog: always `published: True`, plus an
exact category match when the handler kept one. -/
def matchesBlog (catF : Option String) (d : Doc) : Bool :=
  decide (dictGet d "published" = some (.bool true))
  && (match catF with
      | none => true
      | some c => decide (dictGet d "category" = some (.str c)))

/-- Sort key used by `.sort("_id", -1)`: the numeric value of the stored
internal identifier (0 when absent). -/
def docIdKey (d : Doc) : Nat :=
  match dictGet d "_id" with
  | some (.oid n) => n
  | _ => 0

/-- Insert a document into a list kept in descending identifier order. -/
def insertDesc (x : Doc) : List Doc → List Doc
  | [] => [x]
  | y :: ys => if docIdKey y ≤ docIdKey x then x :: y :: ys else y :: insertDesc x ys

/-- The store's `.sort("_id", -1)`: documents in descending identifier
order. -/
def sortByIdDesc : List Doc → List Doc
  | [] => []
  | x :: xs => insertDesc x (sortByIdDesc xs)

/-- GET /api/blog: 500 when no database handle; otherwise filter on
published (plus truthy category), sort by identifier descending, first 50
matches, serialized. -/
def list_blog (db : Option DB) (category : Option String) : ApiResult (List Doc) :=
  match db with
  | none => .err 500 "Database not configured"
  | some db =>
    let catF := if pyTruthy category then category else none
    .ok (((sortByIdDesc (db.blogpost.filter (matchesBlog catF))).take 50).map serializeDoc)

/-- One line of the checkout cart (FastAPI model CartItem); the JSON
number unit_price is modelled as an exact rational. -/
structure CartItem where
  product_id : String
  title : String
  quantity : Int
  unit_price : ℚ
  image : Option String
deriving DecidableEq, Repr

/-- The checkout request body (FastAPI model CheckoutIn). -/
structure CheckoutIn where
  items : List CartItem
  currency : String
  success_url : String
  cancel_url : String
deriving DecidableEq, Repr

/-- Python's round() to an integer: round half to even. -/
def roundHalfEven (q : ℚ) : ℤ :=
  let f := ⌊q⌋
  let frac := q - f
  if frac < 1/2 then f
  else if frac > 1/2 then f + 1
  else if f % 2 = 0 then f else f + 1

/-- One payment-processor line item as assembled by the checkout handler:
currency, display name, optional single image (skipped when the image
string is falsy), unit amount in minor units, quantity. -/
structure LineItem where
  currency : String
  name : String
  images : List String
  unit_amount : ℤ
  quantity : Int
deriving DecidableEq, Repr

/-- The transform applied to each cart line: unit_amount is
int(round(unit_price * 100)) — round half to even, then an identity
integer truncation — and the quantity is copied as-is. -/
def toLineItem (currency : String) (i : CartItem) : LineItem :=
  ⟨currency, i.title,
   if pyTruthy i.image then [i.image.getD ""] else [],
   roundHalfEven (i.unit_price * 100), i.quantity⟩

/-- Outcome of POST /api/checkout up to the external call: either the
early HTTPException, or a session-creation request delegated to the
payment processor with the assembled line items and redirect URLs (the
processor's response is external to this system). -/
inductive CheckoutOutcome where
  | clientError (status : Nat) (detail : String) : CheckoutOutcome
  | sessionRequested (items : List LineItem) (success_url cancel_url : String) : CheckoutOutcome
deriving DecidableEq, Repr

/-- POST /api/checkout: with no truthy STRIPE_SECRET_KEY in the
environment the handler raises 400 before anything else; otherwise it
assembles the line items and delegates session creation. -/
def create_checkout_session (secret : Option String) (payload : CheckoutIn) : CheckoutOutcome :=
  if !pyTruthy secret then .clientError 400 "Stripe not configured"
  else .sessionRequested (payload.items.map (toLineItem payload.currency))
    payload.success_url payload.cancel_url

/-! ### Dictionary and serialization lemmas -/

theorem dictGet_stringifyTop (d : Doc) (k : String) :
    dictGet (stringifyTop d) k = (dictGet d k).map stringifyVal := by
  induction d with
  | nil => rfl
  | cons p rest ih =>
    obtain ⟨k', v⟩ := p
    simp only [stringifyTop, dictGet]
    by_cases h : k' = k
    · simp [h]
    · simp [h, ih]

theorem dictGet_removeKey_ne (d : Doc) (k k' : String) (h : k ≠ k') :
    dictGet (removeKey d k') k = dictGet d k := by
  induction d with
  | nil => rfl
  | cons p rest ih =>
    simp only [removeKey, dictGet]
    by_cases h1 : p.1 = k'
    · have h2 : p.1 ≠ k := by rw [h1]; exact fun hh => h hh.symm
      simp [h1, h2, ih, Ne.symm h, h]
    · by_cases h2 : p.1 = k
      · simp [h1, h2, dictGet, Ne.symm h, h]
      · simp [h1, h2, ih, dictGet]

theorem dictGet_removeKey_self (d : Doc) (k : String) :
    dictGet (removeKey d k) k = none := by
  induction d with
  | nil => rfl
  | cons p rest ih =>
    simp only [removeKey]
    by_cases h1 : p.1 = k
    · simp [h1, ih]
    · simp [dictGet, h1, ih]

theorem dictGet_none_of_not_hasKey (d : Doc) (k : String) (h : hasKey d k = false) :
    dictGet d k = none := by
  induction d with
  | nil => rfl
  | cons p rest ih =>
    simp only [hasKey, Bool.or_eq_false_iff] at h
    simp only [dictGet]
    by_cases h1 : p.1 = k
    · exact absurd (by simpa using h1) (by simpa using h.1)
    · simp [h1, ih h.2]

theorem dictGet_setExisting_ne (d : Doc) (k k' : String) (v : BVal) (h : k ≠ k') :
    dictGet (setExisting d k' v) k = dictGet d k := by
  induction d with
  | nil => rfl
  | cons p rest ih =>
    simp only [setExisting, dictGet]
    by_cases h1 : p.1 = k'
    · have h2 : k' ≠ k := fun hh => h hh.symm
      simp [h1, h2, ih, dictGet]
    · by_cases h2 : p.1 = k
      · simp [h1, h2, dictGet, Ne.symm h, h]
      · simp [h1, h2, ih, dictGet]

theorem dictGet_setExisting_self (d : Doc) (k : String) (v : BVal) (h : hasKey d k = true) :
    dictGet (setExisting d k v) k = some v := by
  induction d with
  | nil => simp [hasKey] at h
  | cons p rest ih =>
    simp only [hasKey, Bool.or_eq_true] at h
    simp only [setExisting]
    by_cases h1 : p.1 = k
    · simp [h1, dictGet]
    · have h2 : hasKey rest k = true := by
        rcases h with h | h
        · exact absurd (by simpa using h) h1
        · exact h
      simp [h1, dictGet, ih h2]

theorem dictGet_append_ne (d : Doc) (k k' : String) (v : BVal) (h : k ≠ k') :
    dictGet (d ++ [(k', v)]) k = dictGet d k := by
  induction d with
  | nil => simp [dictGet, Ne.symm h]
  | cons p rest ih =>
    simp only [List.cons_append, dictGet]
    by_cases h1 : p.1 = k
    · simp [h1]
    · simp [h1, ih]

theorem dictGet_append_self (d : Doc) (k : String) (v : BVal) (h : dictGet d k = none) :
    dictGet (d ++ [(k, v)]) k = some v := by
  induction d with
  | nil => simp [dictGet]
  | cons p rest ih =>
    simp only [dictGet] at h
    by_cases h1 : p.1 = k
    · simp [h1] at h
    · simp only [List.cons_append, dictGet, h1, if_false] at *
      exact ih h

theorem dictGet_dictSet_ne (d : Doc) (k k' : String) (v : BVal) (h : k ≠ k') :
    dictGet (dictSet d k' v) k = dictGet d k := by
  unfold dictSet
  by_cases h1 : hasKey d k'
  · simp [h1, dictGet_setExisting_ne d k k' v h]
  · simp [h1, dictGet_append_ne d k k' v h]

theorem dictGet_dictSet_self (d : Doc) (k : String) (v : BVal) :
    dictGet (dictSet d k v) k = some v := by
  unfold dictSet
  by_cases h1 : hasKey d k
  · simp [h1, dictGet_setExisting_self d k v h1]
  · simp only [h1, Bool.false_eq_true, if_false]
    exact dictGet_append_self d k v (dictGet_none_of_not_hasKey d k (by simpa using h1))

/-- Fields other than `_id` and `id` survive serialization with only the
top-level ObjectId stringification applied to their value. -/
theorem dictGet_serializeDoc (d : Doc) (k : String) (h1 : k ≠ "_id") (h2 : k ≠ "id") :
    dictGet (serializeDoc d) k = (dictGet d k).map stringifyVal := by
  unfold serializeDoc
  by_cases he : d.isEmpty
  · have : d = [] := by cases d with | nil => rfl | cons a b => simp [List.isEmpty] at he
    simp [this, dictGet]
  · simp only [he, Bool.false_eq_true, if_false]
    cases hid : dictGet d "_id" with
    | none => simp [dictGet_stringifyTop]
    | some w =>
      rw [dictGet_stringifyTop, dictGet_dictSet_ne _ _ _ _ h2, dictGet_removeKey_ne _ _ _ h1]

/-- After serialization the `id` field holds the stringified former `_id`. -/
theorem dictGet_serializeDoc_id (d : Doc) (w : BVal) (h : dictGet d "_id" = some w) :
    dictGet (serializeDoc d) "id" = some (.str (bvalStr w)) := by
  have hne : ¬d.isEmpty := by
    cases d with
    | nil => simp [dictGet] at h
    | cons a b => simp [List.isEmpty]
  unfold serializeDoc
  simp only [hne, Bool.false_eq_true, if_false, h]
  rw [dictGet_stringifyTop, dictGet_dictSet_self]
  rfl

/-- Serialization removes the internal `_id` field. -/
theorem dictGet_serializeDoc_idField (d : Doc) :
    dictGet (serializeDoc d) "_id" = none := by
  unfold serializeDoc
  by_cases he : d.isEmpty
  · have : d = [] := by cases d with | nil => rfl | cons a b => simp [List.isEmpty] at he
    simp [this, dictGet]
  · simp only [he, Bool.false_eq_true, if_false]
    cases hid : dictGet d "_id" with
    | none => simp [dictGet_stringifyTop, hid]
    | some w =>
      rw [dictGet_stringifyTop,
        dictGet_dictSet_ne _ _ _ _ (by decide),
        dictGet_removeKey_self]
      rfl

/-- A non-empty optional string is truthy in Python. -/
theorem pyTruthy_some_of_ne (s : String) (h : s ≠ "") : pyTruthy (some s) = true := by
  simp only [pyTruthy, Bool.not_eq_true']
  rw [Bool.eq_false_iff]
  intro hh
  exact h ((String.isEmpty_iff s).mp hh)

/-! ### Claim C1 -/

/-- Claim C1, counterexample: with the database handle unconfigured, the
point-lookup endpoint answers 500 even for a malformed identifier, because
the handler checks the handle before parsing the id — so "returns 400,
never 500, regardless of the rest of the system state" fails. -/
theorem C1_counterexample :
    isValidObjectId "xyz" = false ∧
    get_product none "xyz" = .err 500 "Database not configured" :=
  ⟨by decide, rfl⟩

/-- Claim C1, amended: whenever the database handle is configured, every
malformed product identifier string makes GET /api/products/(id) return
exactly HTTP 400 "Invalid ID" — hence never 500 and never 200 — regardless
of the stored products. -/
theorem C1_amended (db : DB) (s : String) (h : isValidObjectId s = false) :
    get_product (some db) s = .err 400 "Invalid ID" := by
  unfold get_product oid
  simp [h]

/-- Witness for C1_amended at the malformed id "xyz" and an empty store. -/
theorem C1_amended_witness :
    isValidObjectId "xyz" = false ∧
    get_product (some ⟨[], [], [], 0⟩) "xyz" = .err 400 "Invalid ID" :=
  ⟨by decide, C1_amended ⟨[], [], [], 0⟩ "xyz" (by decide)⟩

/-! ### Claim C2 -/

/-- Claim C2, counterexample: a contact payload whose email fails record
validation is answered with HTTP 500 (the handler's catch-all wraps the
validation failure), not with a 4xx status. -/
theorem C2_counterexample :
    emailValid "not-an-email" = false ∧
    (contact_submit (some ⟨[], [], [], 0⟩) ⟨"Alice", "not-an-email", "Hi", "Hello"⟩).2 =
      .err 500 "validation error for Message: email value is not a valid email address" :=
  ⟨by decide, rfl⟩

/-- Claim C2, amended: every POST /api/contact payload that fails record
validation (malformed email) is surfaced as HTTP 500 with the validation
error text — a server-error status, not a 4xx — and nothing is persisted. -/
theorem C2_amended (db : Option DB) (p : ContactIn) (h : emailValid p.email = false) :
    (contact_submit db p).2 =
      .err 500 "validation error for Message: email value is not a valid email address" ∧
    (contact_submit db p).1 = db := by
  unfold contact_submit
  simp [h]

/-- Witness for C2_amended at a concrete malformed payload. -/
theorem C2_amended_witness :
    emailValid "not-an-email" = false ∧
    ((contact_submit none ⟨"Alice", "not-an-email", "Hi", "Hello"⟩).2 =
      .err 500 "validation error for Message: email value is not a valid email address" ∧
     (contact_submit none ⟨"Alice", "not-an-email", "Hi", "Hello"⟩).1 = none) :=
  ⟨by decide, C2_amended none ⟨"Alice", "not-an-email", "Hi", "Hello"⟩ (by decide)⟩

/-! ### Claim C9 -/

/-- Claim C9: with no payment-provider credential configured in the
environment, POST /api/checkout answers HTTP 400 for every payload, and no
session-creation request reaches the payment processor. -/
theorem C9_no_credential (payload : CheckoutIn) :
    create_checkout_session none payload = .clientError 400 "Stripe not configured" ∧
    ∀ items su cu, create_checkout_session none payload ≠ .sessionRequested items su cu := by
  refine ⟨rfl, ?_⟩
  intro items su cu hcontra
  simp [create_checkout_session, pyTruthy] at hcontra

/-! ### Claim C10 -/

/-- Claim C10: an empty-string category= or q= parameter behaves exactly
like omitting the parameter, for the product listing and the blog
listing alike. -/
theorem C10_empty_param_like_omitted (db : Option DB) (c q : Option String) :
    list_products db (some "") q = list_products db none q ∧
    list_products db c (some "") = list_products db c none ∧
    list_blog db (some "") = list_blog db none := by
  cases db <;> exact ⟨rfl, rfl, rfl⟩

/-! ### Claim C7 -/

/-- Claim C7: every record returned by GET /api/products is the
serialization of a stored product with active = true (and the returned
record itself still shows active = true); when a non-empty category is
requested, the stored category of every returned record equals it exactly;
and at most 100 records are returned. A supplied empty-string category is
falsy and applies no filter (see C10). -/
theorem C7_list_products_invariants (db : DB) (cat q : Option String) (l : List Doc)
    (h : list_products (some db) cat q = .ok l) :
    l.length ≤ 100 ∧
    ∀ r ∈ l, dictGet r "active" = some (.bool true) ∧
      ∃ d, d ∈ db.product ∧ r = serializeDoc d ∧
        dictGet d "active" = some (.bool true) ∧
        ∀ c, cat = some c → c ≠ "" → dictGet d "category" = some (.str c) := by
  have hl : l = ((db.product.filter
      (matchesProduct (if pyTruthy cat then cat else none)
        (if pyTruthy q then q else none))).take 100).map serializeDoc := by
    simpa [list_products] using h.symm
  subst hl
  constructor
  · simp [List.length_take]
  · intro r hr
    obtain ⟨d, hd, rfl⟩ := List.mem_map.mp hr
    have hdf := List.mem_of_mem_take hd
    obtain ⟨hdmem, hdp⟩ := List.mem_filter.mp hdf
    unfold matchesProduct at hdp
    simp only [Bool.and_eq_true] at hdp
    have hactive : dictGet d "active" = some (.bool true) := of_decide_eq_true hdp.1.1
    refine ⟨?_, d, hdmem, rfl, hactive, ?_⟩
    · rw [dictGet_serializeDoc d "active" (by decide) (by decide), hactive]
      rfl
    · intro c hc hcne
      subst hc
      have htr : pyTruthy (some c) = true := pyTruthy_some_of_ne c hcne
      rw [htr] at hdp
      simp only [if_true] at hdp
      exact of_decide_eq_true hdp.1.2

/-- Witness for C7 on a store holding one active Hoodies product and one
inactive product, requesting category "Hoodies". -/
theorem C7_list_products_invariants_witness :
    list_products
        (some ⟨[[("_id", .oid 0), ("title", .str "H"), ("category", .str "Hoodies"),
                 ("active", .bool true)],
                [("_id", .oid 1), ("title", .str "T"), ("category", .str "Tees"),
                 ("active", .bool false)]], [], [], 2⟩)
        (some "Hoodies") none =
      .ok [serializeDoc [("_id", .oid 0), ("title", .str "H"),
            ("category", .str "Hoodies"), ("active", .bool true)]] ∧
    ([serializeDoc [("_id", .oid 0), ("title", .str "H"),
        ("category", .str "Hoodies"), ("active", .bool true)]].length ≤ 100 ∧
     ∀ r ∈ [serializeDoc [("_id", .oid 0), ("title", .str "H"),
        ("category", .str "Hoodies"), ("active", .bool true)]],
       dictGet r "active" = some (.bool true) ∧
       ∃ d, d ∈ ([[("_id", .oid 0), ("title", .str "H"), ("category", .str "Hoodies"),
                 ("active", .bool true)],
                [("_id", .oid 1), ("title", .str "T"), ("category", .str "Tees"),
                 ("active", .bool false)]] : List Doc) ∧ r = serializeDoc d ∧
         dictGet d "active" = some (.bool true) ∧
         ∀ c, (some "Hoodies" : Option String) = some c → c ≠ "" →
           dictGet d "category" = some (.str c)) :=
  ⟨by decide,
   C7_list_products_invariants
     ⟨[[("_id", .oid 0), ("title", .str "H"), ("category", .str "Hoodies"),
        ("active", .bool true)],
       [("_id", .oid 1), ("title", .str "T"), ("category", .str "Tees"),
        ("active", .bool false)]], [], [], 2⟩
     (some "Hoodies") none _ (by decide)⟩

/-! ### Claim C3 -/

/-- On patterns free of the wildcard, anchored regex matching is literal
case-insensitive comparison. -/
theorem rxMatchAt_eq_lit (ps : List Char) (h : '.' ∉ ps) (ts : List Char) :
    rxMatchAt ps ts = litMatchAt ps ts := by
  induction ps generalizing ts with
  | nil => cases ts <;> rfl
  | cons p ps ih =>
    cases ts with
    | nil => rfl
    | cons t ts =>
      have hp : ¬(p = '.') := fun hh => h (by simp [hh])
      have hps : '.' ∉ ps := fun hh => h (List.mem_cons_of_mem _ hh)
      simp only [rxMatchAt, litMatchAt, ih hps, decide_eq_false hp, Bool.false_or]

/-- On patterns free of the wildcard, unanchored regex search is
case-insensitive substring containment. -/
theorem rxSearchCI_eq_substr (ps : List Char) (h : '.' ∉ ps) (ts : List Char) :
    rxSearchCI ps ts = substrCI ps ts := by
  induction ts with
  | nil => simp only [rxSearchCI, substrCI, rxMatchAt_eq_lit ps h]
  | cons t ts ih => simp only [rxSearchCI, substrCI, rxMatchAt_eq_lit ps h, ih]

/-- The two product filters agree whenever the kept q pattern contains no
wildcard character. -/
theorem matchesProduct_eq_sub (catF qF : Option String) (d : Doc)
    (hq : ∀ s, qF = some s → '.' ∉ s.data) :
    matchesProduct catF qF d = matchesProductSub catF qF d := by
  unfold matchesProduct matchesProductSub
  congr 1
  cases qF with
  | none => rfl
  | some pat =>
    cases hdt : dictGet d "title" with
    | none => rfl
    | some v =>
      cases v
      case str t => exact rxSearchCI_eq_substr pat.data (hq pat rfl) t.data
      all_goals rfl

/-- Claim C3, counterexample: the q filter is a regular-expression search,
not literal substring matching — the query "a.c" returns the stored active
product titled "abc" although "abc" does not contain "a.c" as a substring. -/
theorem C3_counterexample :
    list_products
        (some ⟨[[("_id", .oid 0), ("title", .str "abc"), ("active", .bool true)]],
          [], [], 1⟩) none (some "a.c") =
      .ok [serializeDoc [("_id", .oid 0), ("title", .str "abc"), ("active", .bool true)]] ∧
    substrCI "a.c".data "abc".data = false ∧
    list_products_substring
        (some ⟨[[("_id", .oid 0), ("title", .str "abc"), ("active", .bool true)]],
          [], [], 1⟩) none (some "a.c") = .ok [] :=
  ⟨by decide, by decide, by decide⟩

/-- Claim C3, amended: the q parameter is interpreted as a case-insensitive
regular-expression pattern, not a literal substring; for every q free of
regex metacharacters (no wildcard, in the modelled operator) the endpoint
coincides with case-insensitive substring filtering of the titles. -/
theorem C3_amended (db : Option DB) (cat q : Option String)
    (h : ∀ s, q = some s → '.' ∉ s.data) :
    list_products db cat q = list_products_substring db cat q := by
  cases db with
  | none => rfl
  | some d =>
    unfold list_products list_products_substring
    simp only [ApiResult.ok.injEq]
    congr 1
    congr 1
    apply List.filter_congr
    intro x _
    apply matchesProduct_eq_sub
    intro s hs
    by_cases ht : pyTruthy q
    · rw [if_pos ht] at hs
      exact h s hs
    · rw [if_neg ht] at hs
      exact absurd hs (by simp)

/-- Witness for C3_amended at a wildcard-free query on a concrete store. -/
theorem C3_amended_witness :
    (∀ s : String, (some "bc" : Option String) = some s → '.' ∉ s.data) ∧
    list_products
        (some ⟨[[("_id", .oid 0), ("title", .str "abc"), ("active", .bool true)]],
          [], [], 1⟩) none (some "bc") =
      list_products_substring
        (some ⟨[[("_id", .oid 0), ("title", .str "abc"), ("active", .bool true)]],
          [], [], 1⟩) none (some "bc") :=
  ⟨by intro s hs; cases hs; decide,
   C3_amended
     (some ⟨[[("_id", .oid 0), ("title", .str "abc"), ("active", .bool true)]],
       [], [], 1⟩) none (some "bc")
     (by intro s hs; cases hs; decide)⟩

/-! ### Claim C4 -/

/-- The spec-worded stringification: identifiers are stringified wherever
they occur, including inside arrays. -/
def stringifyValDeep : BVal → BVal
  | .oid n => .str (oidStr n)
  | .oidArr xs => .strArr (xs.map oidStr)
  | v => v

/-- The spec-worded serialization helper, stated for comparison with
serializeDoc: the internal identifier field is removed and re-added under
"id" stringified, and any other embedded internal identifier values are
stringified in place wherever they occur in the document. -/
def serializeSpecDeep (d : Doc) : Doc :=
  if d.isEmpty then d
  else
    let renamed : Doc :=
      match dictGet d "_id" with
      | some w => dictSet (removeKey d "_id") "id" (.str (bvalStr w))
      | none => d
    renamed.map (fun p => (p.1, stringifyValDeep p.2))

/-- Claim C4, counterexample: an internal identifier nested inside an
array value is left as-is by the code's serializer, while the spec-worded
serializer would stringify it — "wherever they occur in the document"
fails. -/
theorem C4_counterexample :
    dictGet (serializeDoc [("_id", .oid 1), ("refs", .oidArr [2])]) "refs" =
      some (.oidArr [2]) ∧
    dictGet (serializeSpecDeep [("_id", .oid 1), ("refs", .oidArr [2])]) "refs" =
      some (.strArr ["2"]) ∧
    serializeDoc [("_id", .oid 1), ("refs", .oidArr [2])] ≠
      serializeSpecDeep [("_id", .oid 1), ("refs", .oidArr [2])] :=
  ⟨by decide, by decide, by decide⟩

/-- Claim C4, amended: the serialization helper removes the internal
identifier field and re-adds it stringified under "id", stringifies
top-level internal identifier values in place (identifiers nested inside
array values are left unchanged), and passes a null or empty input through
unchanged; in particular a document with _id X and a top-level identifier
value at another key k becomes one with id = str(X) and k stringified. -/
theorem C4_amended (d : Doc) (k : String) (n : Nat) (w : BVal)
    (h1 : dictGet d "_id" = some w) (h2 : dictGet d k = some (.oid n))
    (h3 : k ≠ "_id") (h4 : k ≠ "id") :
    dictGet (serializeDoc d) "id" = some (.str (bvalStr w)) ∧
    dictGet (serializeDoc d) "_id" = none ∧
    dictGet (serializeDoc d) k = some (.str (oidStr n)) ∧
    serialize none = none ∧
    serializeDoc ([] : Doc) = [] := by
  refine ⟨dictGet_serializeDoc_id d w h1, dictGet_serializeDoc_idField d, ?_, rfl, rfl⟩
  rw [dictGet_serializeDoc d k h3 h4, h2]
  rfl

/-- Witness for C4_amended on the document with _id X and owner Y. -/
theorem C4_amended_witness :
    dictGet [("_id", BVal.oid 5), ("owner", BVal.oid 7)] "_id" = some (.oid 5) ∧
    (dictGet (serializeDoc [("_id", BVal.oid 5), ("owner", BVal.oid 7)]) "id" =
       some (.str (bvalStr (.oid 5))) ∧
     dictGet (serializeDoc [("_id", BVal.oid 5), ("owner", BVal.oid 7)]) "_id" = none ∧
     dictGet (serializeDoc [("_id", BVal.oid 5), ("owner", BVal.oid 7)]) "owner" =
       some (.str (oidStr 7)) ∧
     serialize none = none ∧
     serializeDoc ([] : Doc) = []) :=
  ⟨by decide,
   C4_amended [("_id", BVal.oid 5), ("owner", BVal.oid 7)] "owner" 7 (.oid 5)
     (by decide) (by decide) (by decide) (by decide)⟩

/-! ### Claim C5 -/

/-- Rounding half to even never strays more than half a unit: the
converted amount is a nearest integer to the exact product. -/
theorem roundHalfEven_dist (q : ℚ) : |(roundHalfEven q : ℚ) - q| ≤ 1/2 := by
  unfold roundHalfEven
  have h0 : (⌊q⌋ : ℚ) ≤ q := Int.floor_le q
  have h1 : q < ⌊q⌋ + 1 := Int.lt_floor_add_one q
  by_cases hlt : q - ⌊q⌋ < 1/2
  · rw [if_pos hlt, abs_le]
    constructor <;> linarith
  · rw [if_neg hlt]
    by_cases hgt : q - ⌊q⌋ > 1/2
    · rw [if_pos hgt, abs_le]
      push_cast
      constructor <;> linarith
    · have heq : q - ⌊q⌋ = 1/2 := le_antisymm (not_lt.mp hgt) (not_lt.mp hlt)
      by_cases hev : ⌊q⌋ % 2 = 0
      · rw [if_neg hgt, if_pos hev, abs_le]
        constructor <;> linarith
      · rw [if_neg hgt, if_neg hev, abs_le]
        push_cast
        constructor <;> linarith

/-- Claim C5: when a payment credential is configured, checkout turns each
cart line into a processor line item whose unit_amount is the unit price
multiplied by 100 and rounded (half to even) to a nearest integer — the
final integer truncation of an already-integral value is the identity —
and whose quantity is copied as-is; in particular unit price 19.99 with
quantity 2 yields unit_amount 1999 and quantity 2. -/
theorem C5_line_items (s : String) (payload : CheckoutIn) (h : s ≠ "") :
    create_checkout_session (some s) payload =
      .sessionRequested (payload.items.map (toLineItem payload.currency))
        payload.success_url payload.cancel_url ∧
    (∀ cur : String, ∀ i : CartItem,
      (toLineItem cur i).unit_amount = roundHalfEven (i.unit_price * 100) ∧
      (toLineItem cur i).quantity = i.quantity ∧
      |((toLineItem cur i).unit_amount : ℚ) - i.unit_price * 100| ≤ 1/2) ∧
    (toLineItem "eur" ⟨"p1", "Tee", 2, 19.99, none⟩).unit_amount = 1999 ∧
    (toLineItem "eur" ⟨"p1", "Tee", 2, 19.99, none⟩).quantity = 2 := by
  refine ⟨?_, ?_, ?_, rfl⟩
  · unfold create_checkout_session
    rw [pyTruthy_some_of_ne s h]
    rfl
  · intro cur i
    exact ⟨rfl, rfl, roundHalfEven_dist (i.unit_price * 100)⟩
  · show roundHalfEven ((19.99 : ℚ) * 100) = 1999
    norm_num [roundHalfEven]

/-- Witness for C5_line_items at a concrete credential and the cart of the
spec's example. -/
theorem C5_line_items_witness :
    ("sk" : String) ≠ "" ∧
    (create_checkout_session (some "sk")
        ⟨[⟨"p1", "Tee", 2, 19.99, none⟩], "eur", "https://s", "https://c"⟩ =
      .sessionRequested
        ([⟨"p1", "Tee", 2, 19.99, none⟩].map (toLineItem "eur"))
        "https://s" "https://c" ∧
     (∀ cur : String, ∀ i : CartItem,
       (toLineItem cur i).unit_amount = roundHalfEven (i.unit_price * 100) ∧
       (toLineItem cur i).quantity = i.quantity ∧
       |((toLineItem cur i).unit_amount : ℚ) - i.unit_price * 100| ≤ 1/2) ∧
     (toLineItem "eur" ⟨"p1", "Tee", 2, 19.99, none⟩).unit_amount = 1999 ∧
     (toLineItem "eur" ⟨"p1", "Tee", 2, 19.99, none⟩).quantity = 2) :=
  ⟨by decide,
   C5_line_items "sk" ⟨[⟨"p1", "Tee", 2, 19.99, none⟩], "eur", "https://s", "https://c"⟩
     (by decide)⟩

/-! ### Claim C6 -/

/-- Claim C6: on an empty product collection, POST /api/seed inserts
exactly the three fixed demo products and answers inserted = 3; on a
non-empty collection it inserts nothing and answers inserted = 0 with the
"Products already exist" message — so seeding twice leaves exactly three
products in total. -/
theorem C6_seed (d : DB) :
    (d.product = [] →
      ∃ d1 : DB, seed (some d) = (some d1, .ok ⟨3, none⟩) ∧
        d1.product.length = 3 ∧
        seed (some d1) = (some d1, .ok ⟨0, some "Products already exist"⟩)) ∧
    (d.product ≠ [] →
      seed (some d) = (some d, .ok ⟨0, some "Products already exist"⟩)) := by
  constructor
  · intro h
    refine ⟨(demo_products.foldl (fun acc p => (dbCreateProduct acc.1 p, acc.2 + 1)) (d, 0)).1,
      ?_, ?_, ?_⟩
    · simp [seed, h, demo_products]
    · simp [demo_products, dbCreateProduct, h]
    · simp [seed, demo_products, dbCreateProduct, h]
  · intro h
    have hl : d.product.length > 0 := List.length_pos.mpr h
    simp [seed, hl]

/-- Witness for C6_seed at an empty store. -/
theorem C6_seed_witness :
    (([] : List Doc) = [] ∧
      ∃ d1 : DB, seed (some ⟨[], [], [], 0⟩) = (some d1, .ok ⟨3, none⟩) ∧
        d1.product.length = 3 ∧
        seed (some d1) = (some d1, .ok ⟨0, some "Products already exist"⟩)) ∧
    (∀ d' : DB, d'.product ≠ [] →
      seed (some d') = (some d', .ok ⟨0, some "Products already exist"⟩)) :=
  ⟨⟨rfl, (C6_seed ⟨[], [], [], 0⟩).1 rfl⟩, fun d' h => (C6_seed d').2 h⟩

/-! ### Claim C8 -/

/-- Inserting below strictly larger keys appends at the end. -/
theorem insertDesc_append_of_lt (x : Doc) (l : List Doc)
    (h : ∀ y ∈ l, docIdKey x < docIdKey y) : insertDesc x l = l ++ [x] := by
  induction l with
  | nil => rfl
  | cons z zs ih =>
    have hz : ¬docIdKey z ≤ docIdKey x := not_le.mpr (h z (List.mem_cons_self z zs))
    simp [insertDesc, hz, ih (fun y hy => h y (List.mem_cons_of_mem _ hy))]

/-- Sorting a list whose keys strictly increase (insertion order) by
descending key reverses it: newest first. -/
theorem sortByIdDesc_of_increasing (l : List Doc)
    (h : l.Pairwise (fun a b => docIdKey a < docIdKey b)) :
    sortByIdDesc l = l.reverse := by
  induction l with
  | nil => rfl
  | cons x xs ih =>
    rw [List.pairwise_cons] at h
    simp only [sortByIdDesc, ih h.2, List.reverse_cons]
    exact insertDesc_append_of_lt x xs.reverse
      (fun y hy => h.1 y (List.mem_reverse.mp hy))

/-- Claim C8: when the stored blog documents carry strictly increasing
internal identifiers (insertion order), GET /api/blog returns the
published posts (exact category match when a non-empty category is
supplied), newest first — the filtered list reversed — limited to 50, each
serialized; every returned record still shows published = true. -/
theorem C8_list_blog (db : DB) (cat : Option String)
    (hinc : db.blogpost.Pairwise (fun a b => docIdKey a < docIdKey b)) :
    list_blog (some db) cat =
      .ok (((db.blogpost.filter
          (matchesBlog (if pyTruthy cat then cat else none))).reverse.take 50).map
        serializeDoc) ∧
    ∀ l, list_blog (some db) cat = .ok l →
      l.length ≤ 50 ∧
      ∀ r ∈ l, dictGet r "published" = some (.bool true) ∧
        ∃ d, d ∈ db.blogpost ∧ r = serializeDoc d ∧
          dictGet d "published" = some (.bool true) ∧
          ∀ c, cat = some c → c ≠ "" → dictGet d "category" = some (.str c) := by
  have hsorted : sortByIdDesc (db.blogpost.filter
      (matchesBlog (if pyTruthy cat then cat else none))) =
      (db.blogpost.filter (matchesBlog (if pyTruthy cat then cat else none))).reverse :=
    sortByIdDesc_of_increasing _ (hinc.sublist (List.filter_sublist db.blogpost))
  have hmain : list_blog (some db) cat =
      .ok (((db.blogpost.filter
          (matchesBlog (if pyTruthy cat then cat else none))).reverse.take 50).map
        serializeDoc) := by
    simp only [list_blog, hsorted]
  refine ⟨hmain, ?_⟩
  intro l hl
  rw [hmain] at hl
  have hleq : l = ((db.blogpost.filter
      (matchesBlog (if pyTruthy cat then cat else none))).reverse.take 50).map
      serializeDoc := by
    cases hl
    rfl
  subst hleq
  constructor
  · simp [List.length_take]
  · intro r hr
    obtain ⟨d, hd, rfl⟩ := List.mem_map.mp hr
    have hdf := List.mem_reverse.mp (List.mem_of_mem_take hd)
    obtain ⟨hdmem, hdp⟩ := List.mem_filter.mp hdf
    unfold matchesBlog at hdp
    simp only [Bool.and_eq_true] at hdp
    have hpub : dictGet d "published" = some (.bool true) := of_decide_eq_true hdp.1
    refine ⟨?_, d, hdmem, rfl, hpub, ?_⟩
    · rw [dictGet_serializeDoc d "published" (by decide) (by decide), hpub]
      rfl
    · intro c hc hcne
      subst hc
      rw [pyTruthy_some_of_ne c hcne] at hdp
      simp only [if_true] at hdp
      exact of_decide_eq_true hdp.2

/-- Witness for C8_list_blog on a store with two published posts and one
unpublished, inserted in identifier order. -/
theorem C8_list_blog_witness :
    ([[("_id", BVal.oid 0), ("title", .str "a"), ("category", .str "drops"),
        ("published", .bool true)],
      [("_id", BVal.oid 1), ("title", .str "b"), ("category", .str "drops"),
        ("published", .bool false)],
      [("_id", BVal.oid 2), ("title", .str "c"), ("category", .str "drops"),
        ("published", .bool true)]] : List Doc).Pairwise
      (fun a b => docIdKey a < docIdKey b) ∧
    list_blog
        (some ⟨[], [[("_id", BVal.oid 0), ("title", .str "a"), ("category", .str "drops"),
            ("published", .bool true)],
          [("_id", BVal.oid 1), ("title", .str "b"), ("category", .str "drops"),
            ("published", .bool false)],
          [("_id", BVal.oid 2), ("title", .str "c"), ("category", .str "drops"),
            ("published", .bool true)]], [], 3⟩) none =
      .ok ([[("_id", BVal.oid 2), ("title", .str "c"), ("category", .str "drops"),
              ("published", .bool true)],
            [("_id", BVal.oid 0), ("title", .str "a"), ("category", .str "drops"),
              ("published", .bool true)]].map serializeDoc) :=
  ⟨by decide,
   by
    have h := (C8_list_blog
      ⟨[], [[("_id", BVal.oid 0), ("title", .str "a"), ("category", .str "drops"),
          ("published", .bool true)],
        [("_id", BVal.oid 1), ("title", .str "b"), ("category", .str "drops"),
          ("published", .bool false)],
        [("_id", BVal.oid 2), ("title", .str "c"), ("category", .str "drops"),
          ("published", .bool true)]], [], 3⟩ none (by decide)).1
    rw [h]
    decide⟩
